import Mathlib

/-!
Shallow embedding of `loader.py` (SwiftDLC launcher), restricted to the
install-verify-launch orchestration core: version parsing and the
guava keep-latest resolver, the required-file verifier, classpath
collection, the zip extractor, the downloader, and the launch procedure.

Modelling conventions:
* The target platform of the source is Windows (`CLIENT_DIR = r"C:\penjs"`),
  so `is_windows()` is modelled as `true`, `os.sep` as a backslash and
  `os.pathsep` as a semicolon.
* Paths are component lists (`List String`); `os.path.join` of a directory
  with relative components is list append.  `renderPath` produces the
  backslash-joined string the Python code manipulates.
* Python strings are Lean `String`s; helpers (`pyLower`, `pyIn`, …) work on
  `String.data` so that every definition kernel-evaluates.
* Filesystem state and external effects (zip contents, HTTP responses,
  write success) are explicit oracles passed in as structures.
-/

namespace SwiftDLC

/-! ## Python string primitives -/

/-- Python `str.lower()` (source names are ASCII, where `Char.toLower`
agrees with Python). -/
def pyLower (s : String) : String := ⟨s.data.map Char.toLower⟩

/-- Python `sub in s` (substring containment). -/
def pyInAux (pat : List Char) : List Char → Bool
  | [] => pat.isEmpty
  | c :: cs => if listPrefCh pat (c :: cs) then true else pyInAux pat cs
where
  listPrefCh : List Char → List Char → Bool
    | [], _ => true
    | _ :: _, [] => false
    | a :: as, b :: bs => if a = b then listPrefCh as bs else false

def pyIn (sub s : String) : Bool := pyInAux sub.data s.data

/-- Python `s.startswith(pre)`. -/
def pyStartsWith (s pre : String) : Bool := pyInAux.listPrefCh pre.data s.data

/-- Python `s.endswith(suf)`. -/
def pyEndsWith (s suf : String) : Bool := pyInAux.listPrefCh suf.data.reverse s.data.reverse

/-- Python `s.endswith(tuple_of_suffixes)`. -/
def pyEndsWithAny (s : String) (sufs : List String) : Bool := sufs.any (fun t => pyEndsWith s t)

/-- Python `a or b` for optional strings (`None` and `""` are falsy). -/
def pyOrStr (a b : Option String) : Option String :=
  match a with
  | some s => if s = "" then b else some s
  | none => b

/-! ## Paths -/

/-- A filesystem path as its components; `os.path.join` is append. -/
abbrev FPath := List String

/-- Backslash-joined path string (Windows separator). -/
def renderPath (p : FPath) : String := String.intercalate "\\" p

/-- `os.path.basename`: the final path component. -/
def basenameOf (p : FPath) : String := p.getLastD ""

/-- Source constant `GAME_DIR = r"C:\penjs"`. -/
def GAME_DIR : FPath := ["C:", "penjs"]

/-- Source constant `CLIENT_DIR = r"C:\penjs"` (same directory as `GAME_DIR`). -/
def CLIENT_DIR : FPath := ["C:", "penjs"]

/-- Source constant `CLIENT_ZIP_PATH = r"C:\penjs\SwiftDlc.zip"`. -/
def CLIENT_ZIP_PATH : FPath := ["C:", "penjs", "SwiftDlc.zip"]

/-- Source constant `GAME_VERSION = "1.16.5"`. -/
def GAME_VERSION : String := "1.16.5"

/-- Source constant `EXTRACTION_MARKER = ".extracted_ok"`. -/
def EXTRACTION_MARKER : String := ".extracted_ok"

/-- Source list `REQUIRED_PATHS` (paths relative to the game dir). -/
def REQUIRED_PATHS : List FPath :=
  [["swiftdlc", "game", "versions", GAME_VERSION, GAME_VERSION ++ ".jar"],
   ["swiftdlc", "libraries"]]

/-! ## Version parsing (`_extract_version_tuple_from_name`) -/

/-- Greedy match of the regex tail `(\.[0-9]+)*` at the start of `cs`,
returning the matched characters.  Structural on an explicit fuel so that
it kernel-evaluates; fuel `cs.length` always suffices because each step
consumes at least two characters. -/
def dotGroupsAux : Nat → List Char → List Char
  | 0, _ => []
  | fuel + 1, cs =>
    match cs with
    | '.' :: rest =>
      let ds := rest.takeWhile Char.isDigit
      if ds.isEmpty then []
      else '.' :: (ds ++ dotGroupsAux fuel (rest.dropWhile Char.isDigit))
    | _ => []

def dotGroups (cs : List Char) : List Char := dotGroupsAux cs.length cs

/-- Try to match `guava-[0-9]+(\.[0-9]+)*` (case-insensitively) at the
start of `cs`; on success return the captured version substring. -/
def matchGuavaVer (cs : List Char) : Option (List Char) :=
  if (cs.take 6).map Char.toLower = "guava-".data then
    let rest := cs.drop 6
    let ds := rest.takeWhile Char.isDigit
    if ds.isEmpty then none
    else some (ds ++ dotGroups (rest.dropWhile Char.isDigit))
  else none

/-- `re.search`: leftmost position at which the pattern matches. -/
def searchGuava : List Char → Option (List Char)
  | [] => none
  | c :: cs =>
    match matchGuavaVer (c :: cs) with
    | some v => some v
    | none => searchGuava cs

/-- Python `ver.split('.')`. -/
def splitDot : List Char → List (List Char)
  | [] => [[]]
  | c :: cs =>
    if c = '.' then [] :: splitDot cs
    else
      match splitDot cs with
      | [] => [[c]]
      | g :: gs => (c :: g) :: gs

/-- `int(p)` with the `except: append(0)` fallback of the source.  The
regex only ever captures digit groups, so only the digits case matters;
a non-digit or empty group yields `0` exactly as in the source. -/
def pyIntOr0 (cs : List Char) : Nat :=
  if cs ≠ [] ∧ cs.all Char.isDigit then
    cs.foldl (fun a c => a * 10 + (c.toNat - 48)) 0
  else 0

/-- Source `_extract_version_tuple_from_name`: regex-search
`guava-([0-9]+(?:\.[0-9]+)*)` in `name` (ignoring case), split the capture
on dots and parse each part as an integer; `(0,)` when there is no match.
Python integers here are non-negative digit strings, hence `Nat`. -/
def _extract_version_tuple_from_name (name : String) : List Nat :=
  match searchGuava name.data with
  | none => [0]
  | some ver => (splitDot ver).map pyIntOr0

/-- Python tuple `<` on integer tuples: componentwise, first difference
decides, a strict prefix is smaller. -/
def pyTupLt : List Nat → List Nat → Bool
  | _, [] => false
  | [], _ :: _ => true
  | a :: as, b :: bs => if a < b then true else if a = b then pyTupLt as bs else false

/-! ## Stable descending sort (Python `sorted(..., key=k, reverse=True)`)

Python's `sorted` is a stable sort; with `reverse=True` it orders by
strictly descending key, keeping the original order of key-ties.  A stable
sort is extensionally unique, so we model it by stable insertion sort. -/

def insertDesc {α} (k : α → List Nat) (x : α) : List α → List α
  | [] => [x]
  | y :: ys => if pyTupLt (k x) (k y) then y :: insertDesc k x ys else x :: y :: ys

def sortDesc {α} (k : α → List Nat) : List α → List α
  | [] => []
  | x :: xs => insertDesc k x (sortDesc k xs)

/-! ## The guava resolver (`_filter_guava_keep_latest`) -/

/-- The duplicate-prone-artifact test of the source:
`"guava-" in os.path.basename(j).lower()`. -/
def isGuavaJar (j : FPath) : Bool := pyIn "guava-" (pyLower (basenameOf j))

/-- Sort key of the source: `_extract_version_tuple_from_name(os.path.basename(p))`. -/
def guavaKey (j : FPath) : List Nat := _extract_version_tuple_from_name (basenameOf j)

/-- Source `_filter_guava_keep_latest`: keep all non-guava jars in order,
drop every guava jar and append the one with the greatest version tuple
(first collected among key-ties, by stability of Python's sort). -/
def _filter_guava_keep_latest (jars : List FPath) : List FPath :=
  let guavas := jars.filter (fun j => isGuavaJar j)
  if guavas.isEmpty then jars
  else
    let sorted_guavas := sortDesc guavaKey guavas
    let latest := sorted_guavas.headD (guavas.headD [])
    (jars.filter fun j => !(isGuavaJar j)) ++ [latest]

/-! ## Order lemmas for `pyTupLt` -/

theorem pyTupLt_irrefl (a : List Nat) : pyTupLt a a = false := by
  induction a with
  | nil => rfl
  | cons x xs ih => simp [pyTupLt, ih]

theorem pyTupLt_cons_lt {a b : Nat} (h : a < b) {as bs : List Nat} :
    pyTupLt (a :: as) (b :: bs) = true := by
  simp only [pyTupLt]
  rw [if_pos h]

theorem pyTupLt_cons_eq {a : Nat} {as bs : List Nat} :
    pyTupLt (a :: as) (a :: bs) = pyTupLt as bs := by
  simp only [pyTupLt]
  rw [if_neg (by omega)]
  simp

theorem pyTupLt_cons_gt {a b : Nat} (h : b < a) {as bs : List Nat} :
    pyTupLt (a :: as) (b :: bs) = false := by
  simp only [pyTupLt]
  rw [if_neg (by omega), if_neg (by omega)]

theorem pyTupLt_asymm : ∀ a b : List Nat, pyTupLt a b = true → pyTupLt b a = false
  | _, [], h => by simp [pyTupLt] at h
  | [], _ :: _, _ => by simp [pyTupLt]
  | a :: as, b :: bs, h => by
    rcases Nat.lt_trichotomy a b with h1 | h1 | h1
    · exact pyTupLt_cons_gt h1
    · subst h1
      rw [pyTupLt_cons_eq] at h
      rw [pyTupLt_cons_eq]
      exact pyTupLt_asymm as bs h
    · rw [pyTupLt_cons_gt h1] at h
      exact absurd h (by simp)

theorem pyTupLt_ge_trans :
    ∀ a b c : List Nat, pyTupLt a b = false → pyTupLt b c = false → pyTupLt a c = false
  | a, _, [], _, _ => by cases a <;> simp [pyTupLt]
  | a, [], c :: cs, hab, hbc => by simp [pyTupLt] at hbc
  | [], b :: bs, c :: cs, hab, hbc => by simp [pyTupLt] at hab
  | a :: as, b :: bs, c :: cs, hab, hbc => by
    rcases Nat.lt_trichotomy a b with h1 | h1 | h1
    · rw [pyTupLt_cons_lt h1] at hab
      exact absurd hab (by simp)
    · subst h1
      rcases Nat.lt_trichotomy a c with h2 | h2 | h2
      · rw [pyTupLt_cons_lt h2] at hbc
        exact absurd hbc (by simp)
      · subst h2
        rw [pyTupLt_cons_eq] at hab hbc
        rw [pyTupLt_cons_eq]
        exact pyTupLt_ge_trans as bs cs hab hbc
      · exact pyTupLt_cons_gt h2
    · rcases Nat.lt_trichotomy b c with h2 | h2 | h2
      · rw [pyTupLt_cons_lt h2] at hbc
        exact absurd hbc (by simp)
      · subst h2
        exact pyTupLt_cons_gt h1
      · exact pyTupLt_cons_gt (by omega : c < a)

/-! ## Properties of the stable descending sort -/

theorem mem_insertDesc {α} (k : α → List Nat) (x a : α) :
    ∀ l : List α, a ∈ insertDesc k x l ↔ a = x ∨ a ∈ l
  | [] => by simp [insertDesc]
  | y :: ys => by
    simp only [insertDesc]
    split
    · rw [List.mem_cons, mem_insertDesc k x a ys, List.mem_cons]
      tauto
    · simp [List.mem_cons]

theorem insertDesc_ne_nil {α} (k : α → List Nat) (x : α) (l : List α) :
    insertDesc k x l ≠ [] := by
  cases l with
  | nil => simp [insertDesc]
  | cons y ys =>
    simp only [insertDesc]
    split <;> simp

theorem sortDesc_ne_nil {α} (k : α → List Nat) (x : α) (xs : List α) :
    sortDesc k (x :: xs) ≠ [] := by
  simp only [sortDesc]
  exact insertDesc_ne_nil k x (sortDesc k xs)

theorem mem_sortDesc {α} (k : α → List Nat) (a : α) :
    ∀ l : List α, a ∈ sortDesc k l ↔ a ∈ l
  | [] => by simp [sortDesc]
  | x :: xs => by
    simp only [sortDesc, mem_insertDesc, mem_sortDesc k a xs, List.mem_cons]

/-- The head of the stable descending sort is a member whose key is
maximal: no element of the list has a strictly greater key. -/
theorem sortDesc_head_max {α} (k : α → List Nat) (d : α) :
    ∀ l : List α, l ≠ [] →
      (sortDesc k l).headD d ∈ l ∧
      ∀ y ∈ l, pyTupLt (k ((sortDesc k l).headD d)) (k y) = false
  | [], h => absurd rfl h
  | x :: xs, _ => by
    by_cases hxs : xs = []
    · subst hxs
      refine ⟨by simp [sortDesc, insertDesc], ?_⟩
      intro y hy
      simp only [List.mem_singleton] at hy
      subst hy
      simp [sortDesc, insertDesc, pyTupLt_irrefl]
    · obtain ⟨hmem, hmax⟩ := sortDesc_head_max k d xs hxs
      obtain ⟨h, t, hs⟩ : ∃ h t, sortDesc k xs = h :: t := by
        cases hsx : sortDesc k xs with
        | nil =>
          cases xs with
          | nil => exact absurd rfl hxs
          | cons z zs => exact absurd hsx (sortDesc_ne_nil k z zs)
        | cons h t => exact ⟨h, t, rfl⟩
      rw [hs] at hmem hmax
      simp only [List.headD_cons] at hmem hmax
      simp only [sortDesc]
      rw [hs]
      simp only [insertDesc]
      split
      · -- the old head keeps its place; `x` sinks into the tail
        rename_i hlt
        simp only [List.headD_cons]
        refine ⟨List.mem_cons_of_mem x hmem, ?_⟩
        intro y hy
        rcases List.mem_cons.mp hy with hy | hy
        · subst hy; exact pyTupLt_asymm _ _ hlt
        · exact hmax y hy
      · -- `x` becomes the new head
        rename_i hnlt
        have hxh : pyTupLt (k x) (k h) = false := by
          revert hnlt
          cases pyTupLt (k x) (k h) <;> simp
        simp only [List.headD_cons]
        refine ⟨List.mem_cons_self x xs, ?_⟩
        intro y hy
        rcases List.mem_cons.mp hy with hy | hy
        · subst hy; exact pyTupLt_irrefl _
        · exact pyTupLt_ge_trans _ _ _ hxh (hmax y hy)

/-! ## Claims C3 and C4 -/

/-- C3 counterexample: the comparison the resolver uses performs no
zero-padding.  `guava-1.2.0` parses to `[1,2,0]` and `guava-1.2` to
`[1,2]`; the tuples are not equal, and `1.2` compares strictly below
`1.2.0`, so `1.2.0` beats `1.2` — refuting "version 1.2.0 compares equal
to 1.2 (so neither beats the other)". -/
theorem version_zero_padding_refuted :
    _extract_version_tuple_from_name "guava-1.2.0.jar" = [1, 2, 0] ∧
    _extract_version_tuple_from_name "guava-1.2.jar" = [1, 2] ∧
    ([1, 2, 0] : List Nat) ≠ [1, 2] ∧
    pyTupLt (_extract_version_tuple_from_name "guava-1.2.jar")
      (_extract_version_tuple_from_name "guava-1.2.0.jar") = true := by
  refine ⟨by decide, by decide, by decide, by decide⟩

/-- C3 (amended): the resolver's version comparison is lexicographic on
parsed integer tuples — `2.10 > 2.9` — but without zero-padding: a tuple
that is a strict prefix compares strictly smaller, so `1.2.0` beats `1.2`
and the resolver keeps `guava-1.2.0.jar` over `guava-1.2.jar`. -/
theorem version_compare_lexicographic :
    pyTupLt (_extract_version_tuple_from_name "guava-2.9.jar")
      (_extract_version_tuple_from_name "guava-2.10.jar") = true ∧
    pyTupLt (_extract_version_tuple_from_name "guava-2.10.jar")
      (_extract_version_tuple_from_name "guava-2.9.jar") = false ∧
    pyTupLt (_extract_version_tuple_from_name "guava-1.2.jar")
      (_extract_version_tuple_from_name "guava-1.2.0.jar") = true ∧
    _filter_guava_keep_latest [["guava-1.2.jar"], ["guava-1.2.0.jar"]] =
      [["guava-1.2.0.jar"]] := by
  refine ⟨by decide, by decide, by decide, by decide⟩

/-- C4: with at least two duplicate-prone artifacts in the list, the
resolver removes every matching artifact, keeps all unmatched artifacts
untouched in their original order, and appends exactly one matching
artifact at the end — one whose parsed version tuple is lexicographically
maximal among all matching artifacts. -/
theorem resolver_keeps_latest_guava (jars : List FPath)
    (h : 2 ≤ (jars.filter fun j => isGuavaJar j).length) :
    ∃ latest,
      _filter_guava_keep_latest jars = (jars.filter fun j => !(isGuavaJar j)) ++ [latest] ∧
      latest ∈ jars.filter (fun j => isGuavaJar j) ∧
      ∀ g ∈ jars.filter (fun j => isGuavaJar j), pyTupLt (guavaKey latest) (guavaKey g) = false := by
  have hne : (jars.filter fun j => isGuavaJar j) ≠ [] := by
    intro hnil
    rw [hnil] at h
    simp at h
  obtain ⟨hmem, hmax⟩ :=
    sortDesc_head_max guavaKey ((jars.filter fun j => isGuavaJar j).headD [])
      (jars.filter fun j => isGuavaJar j) hne
  refine ⟨(sortDesc guavaKey (jars.filter fun j => isGuavaJar j)).headD
    ((jars.filter fun j => isGuavaJar j).headD []), ?_, hmem, hmax⟩
  unfold _filter_guava_keep_latest
  simp only [List.isEmpty_iff]
  rw [if_neg hne]

/-- C4 witness: the resolver applied to
`[guava-19.0.jar, x.jar, guava-30.1.1.jar]`. -/
theorem resolver_keeps_latest_guava_witness :
    2 ≤ (([["guava-19.0.jar"], ["x.jar"], ["guava-30.1.1.jar"]] : List FPath).filter
        fun j => isGuavaJar j).length ∧
    ∃ latest,
      _filter_guava_keep_latest [["guava-19.0.jar"], ["x.jar"], ["guava-30.1.1.jar"]] =
        (([["guava-19.0.jar"], ["x.jar"], ["guava-30.1.1.jar"]] : List FPath).filter
          fun j => !(isGuavaJar j)) ++ [latest] ∧
      latest ∈ ([["guava-19.0.jar"], ["x.jar"], ["guava-30.1.1.jar"]] : List FPath).filter
        (fun j => isGuavaJar j) ∧
      ∀ g ∈ ([["guava-19.0.jar"], ["x.jar"], ["guava-30.1.1.jar"]] : List FPath).filter
        (fun j => isGuavaJar j), pyTupLt (guavaKey latest) (guavaKey g) = false :=
  ⟨by decide, resolver_keeps_latest_guava _ (by decide)⟩

/-! ## Filesystem model

Disk state is an oracle: the set of existing file paths and directory
paths, as ordered lists (the order of `files` models the deterministic
order in which `os.walk` enumerates the tree). -/

structure FS where
  files : List FPath
  dirs : List FPath
deriving DecidableEq

/-- `os.path.exists`. -/
def FS.ex (fs : FS) (p : FPath) : Bool := fs.files.contains p || fs.dirs.contains p

/-- `os.path.isdir`. -/
def FS.isdir (fs : FS) (p : FPath) : Bool := fs.dirs.contains p

/-- Boolean list-prefix test. -/
def listPref {α} [DecidableEq α] : List α → List α → Bool
  | [], _ => true
  | _ :: _, [] => false
  | a :: as, b :: bs => if a = b then listPref as bs else false

/-- `f` lies strictly inside the directory tree rooted at `root`. -/
def isUnder (root f : FPath) : Bool := listPref root f && decide (root.length < f.length)

/-- The files that the `os.walk(root)` loops of the source reach and keep
(`fn.endswith(".jar")`), rejoined to full paths (`os.path.join(root, fn)`). -/
def walkJars (fs : FS) (root : FPath) : List FPath :=
  fs.files.filter fun f => isUnder root f && pyEndsWith (basenameOf f) ".jar"

/-- The verifier's inner loop: does any `.jar` file exist under `p`? -/
def anyJarUnder (fs : FS) (p : FPath) : Bool :=
  fs.files.any fun f => isUnder p f && pyEndsWith (basenameOf f) ".jar"

/-- `os.path.join(GAME_DIR, "swiftdlc", "game", "libraries")`. -/
def LIBRARIES_DIR : FPath := GAME_DIR ++ ["swiftdlc", "game", "libraries"]

/-- The version jar path used both by the verifier's safety net and by
classpath collection. -/
def VERSION_JAR : FPath :=
  GAME_DIR ++ ["swiftdlc", "game", "versions", GAME_VERSION, GAME_VERSION ++ ".jar"]

/-! ## Required-file verifier (`LauncherWindow._check_required_files`) -/

/-- Source `_check_required_files`: walk `REQUIRED_PATHS`; a requirement
whose rendered path ends in `"swiftdlc"`, `"game"` or `"libraries"` is
checked as the libraries directory (present, and containing at least one
`.jar` anywhere below), any other requirement as plain path existence;
finally the version jar is re-checked unconditionally.  Returns the
`missing` list of the source (path strings, the `(no jars)` variant for a
jar-less directory). -/
def _check_required_files (fs : FS) : List String :=
  (REQUIRED_PATHS.flatMap fun rel =>
    if pyEndsWithAny (renderPath rel) ["swiftdlc", "game", "libraries"] then
      if !(fs.isdir LIBRARIES_DIR) then [renderPath LIBRARIES_DIR]
      else if !(anyJarUnder fs LIBRARIES_DIR) then [renderPath LIBRARIES_DIR ++ " (no jars)"]
      else []
    else
      if !(fs.ex (GAME_DIR ++ rel)) then [renderPath (GAME_DIR ++ rel)] else []) ++
  (if !(fs.ex VERSION_JAR) then [renderPath VERSION_JAR] else [])

/-- Normal form of the verifier: of the two `REQUIRED_PATHS` entries only
the second takes the libraries branch, the first resolves to the version
jar path, and the safety net re-checks that same path. -/
theorem check_required_files_eq (fs : FS) :
    _check_required_files fs =
      (if fs.ex VERSION_JAR then [] else [renderPath VERSION_JAR]) ++
      (if fs.isdir LIBRARIES_DIR then
         (if anyJarUnder fs LIBRARIES_DIR then []
          else [renderPath LIBRARIES_DIR ++ " (no jars)"])
       else [renderPath LIBRARIES_DIR]) ++
      (if fs.ex VERSION_JAR then [] else [renderPath VERSION_JAR]) := by
  have e1 : pyEndsWithAny
      (renderPath ["swiftdlc", "game", "versions", GAME_VERSION, GAME_VERSION ++ ".jar"])
      ["swiftdlc", "game", "libraries"] = false := by decide
  have e2 : pyEndsWithAny (renderPath ["swiftdlc", "libraries"])
      ["swiftdlc", "game", "libraries"] = true := by decide
  have ej : GAME_DIR ++ ["swiftdlc", "game", "versions", GAME_VERSION, GAME_VERSION ++ ".jar"]
      = VERSION_JAR := rfl
  simp only [_check_required_files, REQUIRED_PATHS, List.flatMap_cons, List.flatMap_nil,
    List.append_nil, e1, e2, ej]
  cases hx : fs.ex VERSION_JAR <;> cases hd : fs.isdir LIBRARIES_DIR <;>
    cases hja : anyJarUnder fs LIBRARIES_DIR <;> simp

/-! ## Classpath collection (`launch_procedure`, lines 828-844) -/

/-- The three collection passes of the source: walk the libraries subtree
for `.jar` files, append the version jar when it exists, then walk the
whole client directory for `.jar` files. -/
def collect_classpath (fs : FS) : List FPath :=
  (if fs.isdir LIBRARIES_DIR then walkJars fs LIBRARIES_DIR else []) ++
  (if fs.ex VERSION_JAR then [VERSION_JAR] else []) ++
  (if fs.isdir CLIENT_DIR then walkJars fs CLIENT_DIR else [])

/-! ## Helper lemmas for C9 and C10 -/

theorem listPref_append_left {α} [DecidableEq α] :
    ∀ a b c : List α, listPref (a ++ b) c = true → listPref a c = true
  | [], _, _, _ => rfl
  | x :: as, b, [], h => by simp [listPref] at h
  | x :: as, b, y :: cs, h => by
    simp only [List.cons_append, listPref] at h ⊢
    split at h
    · rw [if_pos (by assumption)]
      exact listPref_append_left as b cs h
    · exact absurd h (by simp)

theorem listPref_length_le {α} [DecidableEq α] :
    ∀ a b : List α, listPref a b = true → a.length ≤ b.length
  | [], _, _ => by simp
  | x :: as, [], h => by simp [listPref] at h
  | x :: as, y :: bs, h => by
    simp only [listPref] at h
    split at h
    · simpa using listPref_length_le as bs h
    · exact absurd h (by simp)

/-- Membership in `walkJars fs CLIENT_DIR` from the raw facts. -/
theorem mem_walkJars_client (fs : FS) (j : FPath) (hfile : j ∈ fs.files)
    (hpref : listPref CLIENT_DIR j = true) (hlen : CLIENT_DIR.length < j.length)
    (hjar : pyEndsWith (basenameOf j) ".jar" = true) :
    j ∈ walkJars fs CLIENT_DIR := by
  unfold walkJars
  rw [List.mem_filter]
  exact ⟨hfile, by simp [isUnder, hpref, hlen, hjar]⟩

/-! ## Claim C9: the bundle-root walk re-collects everything -/

/-- C9: because `CLIENT_DIR` and `GAME_DIR` are the same directory, any
jar produced by the first two collection passes (library walk, version
jar) is also produced by the third pass over the bundle root, so the list
handed to the resolver counts it at least twice; and for any such jar not
matching the guava pattern the duplicate survives the resolver. -/
theorem bundle_walk_duplicates_jars (fs : FS) (j : FPath)
    (hdir : fs.isdir CLIENT_DIR = true)
    (hfile : j ∈ fs.files)
    (hj : j ∈ (if fs.isdir LIBRARIES_DIR then walkJars fs LIBRARIES_DIR else []) ++
          (if fs.ex VERSION_JAR then [VERSION_JAR] else [])) :
    2 ≤ (collect_classpath fs).count j ∧
    (isGuavaJar j = false → 2 ≤ ((_filter_guava_keep_latest (collect_classpath fs)).count j)) := by
  have hclient : j ∈ walkJars fs CLIENT_DIR := by
    rcases List.mem_append.mp hj with hj1 | hj2
    · -- collected by the libraries walk
      have hj1' : j ∈ walkJars fs LIBRARIES_DIR := by
        by_cases hld : fs.isdir LIBRARIES_DIR = true
        · rwa [if_pos hld] at hj1
        · rw [if_neg hld] at hj1
          exact absurd hj1 (List.not_mem_nil j)
      unfold walkJars at hj1'
      rw [List.mem_filter] at hj1'
      obtain ⟨-, hcond⟩ := hj1'
      rw [Bool.and_eq_true] at hcond
      obtain ⟨hunder, hjar⟩ := hcond
      rw [isUnder, Bool.and_eq_true, decide_eq_true_iff] at hunder
      obtain ⟨hpref, hlen⟩ := hunder
      have hpc : listPref CLIENT_DIR j = true :=
        listPref_append_left CLIENT_DIR ["swiftdlc", "game", "libraries"] j hpref
      have hlc : CLIENT_DIR.length < j.length := by
        have hle := listPref_length_le _ _ hpref
        have h5 : LIBRARIES_DIR.length = 5 := rfl
        have h2 : CLIENT_DIR.length = 2 := rfl
        omega
      exact mem_walkJars_client fs j hfile hpc hlc hjar
    · -- the version jar pass
      have hj2' : j = VERSION_JAR := by
        by_cases hvx : fs.ex VERSION_JAR = true
        · rw [if_pos hvx] at hj2
          exact List.mem_singleton.mp hj2
        · rw [if_neg hvx] at hj2
          exact absurd hj2 (List.not_mem_nil j)
      subst hj2'
      exact mem_walkJars_client fs VERSION_JAR hfile (by decide) (by decide) (by decide)
  have hcount : 2 ≤ (collect_classpath fs).count j := by
    unfold collect_classpath
    rw [List.count_append, List.count_append]
    have h1 : 1 ≤ ((if fs.isdir LIBRARIES_DIR then walkJars fs LIBRARIES_DIR else []) ++
        (if fs.ex VERSION_JAR then [VERSION_JAR] else [])).count j :=
      List.count_pos_iff.mpr hj
    rw [List.count_append] at h1
    have h3 : 1 ≤ (if fs.isdir CLIENT_DIR = true then walkJars fs CLIENT_DIR else []).count j := by
      rw [if_pos hdir]
      exact List.count_pos_iff.mpr hclient
    omega
  refine ⟨hcount, fun hng => ?_⟩
  unfold _filter_guava_keep_latest
  by_cases hg : ((collect_classpath fs).filter fun j' => isGuavaJar j').isEmpty = true
  · rw [if_pos hg]
    exact hcount
  · rw [if_neg hg]
    rw [List.count_append]
    have : ((collect_classpath fs).filter fun j' => !(isGuavaJar j')).count j
        = (collect_classpath fs).count j :=
      List.count_filter (by show (!(isGuavaJar j)) = true; rw [hng]; rfl)
    omega

/-- C9 witness: a filesystem holding one library jar and the version jar;
both are double-collected and the non-guava jar survives the resolver
twice. -/
theorem bundle_walk_duplicates_jars_witness :
    (FS.isdir ⟨[LIBRARIES_DIR ++ ["foo.jar"], VERSION_JAR],
        [CLIENT_DIR, LIBRARIES_DIR]⟩ CLIENT_DIR = true) ∧
    (LIBRARIES_DIR ++ ["foo.jar"]) ∈
      (FS.mk [LIBRARIES_DIR ++ ["foo.jar"], VERSION_JAR] [CLIENT_DIR, LIBRARIES_DIR]).files ∧
    (LIBRARIES_DIR ++ ["foo.jar"]) ∈
      ((if (FS.mk [LIBRARIES_DIR ++ ["foo.jar"], VERSION_JAR]
            [CLIENT_DIR, LIBRARIES_DIR]).isdir LIBRARIES_DIR
        then walkJars (FS.mk [LIBRARIES_DIR ++ ["foo.jar"], VERSION_JAR]
            [CLIENT_DIR, LIBRARIES_DIR]) LIBRARIES_DIR else []) ++
       (if (FS.mk [LIBRARIES_DIR ++ ["foo.jar"], VERSION_JAR]
            [CLIENT_DIR, LIBRARIES_DIR]).ex VERSION_JAR then [VERSION_JAR] else [])) ∧
    2 ≤ (collect_classpath (FS.mk [LIBRARIES_DIR ++ ["foo.jar"], VERSION_JAR]
          [CLIENT_DIR, LIBRARIES_DIR])).count (LIBRARIES_DIR ++ ["foo.jar"]) ∧
    (isGuavaJar (LIBRARIES_DIR ++ ["foo.jar"]) = false →
      2 ≤ ((_filter_guava_keep_latest (collect_classpath
            (FS.mk [LIBRARIES_DIR ++ ["foo.jar"], VERSION_JAR]
              [CLIENT_DIR, LIBRARIES_DIR]))).count (LIBRARIES_DIR ++ ["foo.jar"]))) := by
  refine ⟨by decide, by decide, by decide, ?_, ?_⟩
  · exact (bundle_walk_duplicates_jars _ _ (by decide) (by decide) (by decide)).1
  · exact (bundle_walk_duplicates_jars _ _ (by decide) (by decide) (by decide)).2

/-! ## Claim C10: the version jar is reported missing twice -/

/-- Counting and deduplication facts about the verifier's output shape
when the version jar is absent, for every state of the two remaining
fs-dependent booleans. -/
theorem check_count_aux (b1 b2 : Bool) :
    (((if (false : Bool) then [] else [renderPath VERSION_JAR]) ++
      (if b1 then (if b2 then [] else [renderPath LIBRARIES_DIR ++ " (no jars)"])
       else [renderPath LIBRARIES_DIR]) ++
      (if (false : Bool) then [] else [renderPath VERSION_JAR])).count
        (renderPath VERSION_JAR) = 2) ∧
    (((if (false : Bool) then [] else [renderPath VERSION_JAR]) ++
      (if b1 then (if b2 then [] else [renderPath LIBRARIES_DIR ++ " (no jars)"])
       else [renderPath LIBRARIES_DIR]) ++
      (if (false : Bool) then [] else [renderPath VERSION_JAR])).length =
     ((if (false : Bool) then [] else [renderPath VERSION_JAR]) ++
      (if b1 then (if b2 then [] else [renderPath LIBRARIES_DIR ++ " (no jars)"])
       else [renderPath LIBRARIES_DIR]) ++
      (if (false : Bool) then [] else [renderPath VERSION_JAR])).dedup.length + 1) := by
  cases b1 <;> cases b2 <;> decide

/-- C10: when the version jar is absent, `_check_required_files` reports
its path twice — once from the first manifest entry and once from the
unconditional safety-net check — so the missing list is one longer than
its set of distinct entries. -/
theorem version_jar_reported_twice (fs : FS) (h : fs.ex VERSION_JAR = false) :
    (_check_required_files fs).count (renderPath VERSION_JAR) = 2 ∧
    (_check_required_files fs).length = (_check_required_files fs).dedup.length + 1 := by
  rw [check_required_files_eq fs, h]
  exact check_count_aux (fs.isdir LIBRARIES_DIR) (anyJarUnder fs LIBRARIES_DIR)

/-- C10 witness: the empty filesystem. -/
theorem version_jar_reported_twice_witness :
    (FS.ex ⟨[], []⟩ VERSION_JAR = false) ∧
    (_check_required_files ⟨[], []⟩).count (renderPath VERSION_JAR) = 2 ∧
    (_check_required_files ⟨[], []⟩).length = (_check_required_files ⟨[], []⟩).dedup.length + 1 :=
  ⟨by decide, version_jar_reported_twice ⟨[], []⟩ (by decide)⟩

/-! ## Long-path prefixing (`add_long_path_prefix`)

The source targets Windows here; `abspath` is the identity on the
absolute normalized paths the extractor and launcher produce. -/

/-- `add_long_path_prefix`: prepend the Windows long-path marker unless
already present, with the UNC variant for network paths. -/
def long_path_prefixed (p : String) : String :=
  if pyStartsWith p "\\\\?\\" then p
  else if pyStartsWith p "\\\\" then "\\\\?\\UNC\\" ++ ⟨p.data.dropWhile (· = '\\')⟩
  else "\\\\?\\" ++ p

/-! ## Archive extractor (`extract_zip_manual`) -/

/-- `member.filename.replace("/", os.sep).replace("\\", os.sep)` with the
Windows separator: both slash characters become backslashes. -/
def normEntryName (name : String) : String :=
  ⟨name.data.map fun c => if c = '/' then '\\' else c⟩

/-- `os.path.normpath(os.path.join(target_dir, name_norm))`; `normpath`
is the identity on the already-normalized, dot-free entry paths modelled
here. -/
def entryTarget (targetDir name : String) : String :=
  targetDir ++ "\\" ++ normEntryName name

/-- Extraction oracle: the archive's entry names in order (`none` when
`ZipFile` itself raises, e.g. a corrupt archive), and which exact path
strings `open(..., "wb")` succeeds on. -/
structure ZEnv where
  archive : Option (List String)
  writeOk : String → Bool

/-- Observable outcome of one extraction run. -/
structure ZResult where
  success : Bool
  attempted : List String
  written : List String
  extractedCount : Nat
  marker : Option String

/-- The per-entry loop of `extract_zip_manual`: skip directory entries;
for a file entry try the long-path-prefixed write, then the unprefixed
fallback; an entry failing both is logged and skipped, never aborting the
loop, and the `extracted` counter advances either way. -/
def extractEntries (wOk : String → Bool) (targetDir : String) :
    List String → List String × List String × Nat
  | [] => ([], [], 0)
  | name :: rest =>
    if pyEndsWith (normEntryName name) "\\" then extractEntries wOk targetDir rest
    else
      let target := entryTarget targetDir name
      let r := extractEntries wOk targetDir rest
      (target :: r.1,
       if wOk (long_path_prefixed target) || wOk target then target :: r.2.1 else r.2.1,
       r.2.2 + 1)

/-- Source `extract_zip_manual`: `false` only when the archive cannot be
opened; otherwise every entry is processed, the completion marker is
attempted with content `"ok"` (its own failure passed over), and the
function returns `true`. -/
def extract_zip_manual (env : ZEnv) (targetDir : String) : ZResult :=
  match env.archive with
  | none => ⟨false, [], [], 0, none⟩
  | some members =>
    let r := extractEntries env.writeOk targetDir members
    ⟨true, r.1, r.2.1, r.2.2,
     if env.writeOk (long_path_prefixed (targetDir ++ "\\" ++ EXTRACTION_MARKER))
     then some "ok" else none⟩

/-- Characterization of the entry loop: the attempted targets are exactly
the non-directory entries in order, and the written ones are exactly
those whose primary or fallback write succeeds. -/
theorem extractEntries_spec (wOk : String → Bool) (targetDir : String) :
    ∀ members : List String,
      (extractEntries wOk targetDir members).1 =
        (members.filter fun n => !(pyEndsWith (normEntryName n) "\\")).map
          (fun n => entryTarget targetDir n) ∧
      (extractEntries wOk targetDir members).2.1 =
        ((members.filter fun n => !(pyEndsWith (normEntryName n) "\\")).map
          (fun n => entryTarget targetDir n)).filter
          (fun t => wOk (long_path_prefixed t) || wOk t) ∧
      (extractEntries wOk targetDir members).2.2 =
        (members.filter fun n => !(pyEndsWith (normEntryName n) "\\")).length
  | [] => ⟨rfl, rfl, rfl⟩
  | name :: rest => by
    obtain ⟨ih1, ih2, ih3⟩ := extractEntries_spec wOk targetDir rest
    by_cases hd : pyEndsWith (normEntryName name) "\\" = true
    · simp only [extractEntries, hd, if_true, List.filter_cons, Bool.not_true,
        Bool.false_eq_true, if_false]
      exact ⟨ih1, ih2, ih3⟩
    · rw [Bool.not_eq_true] at hd
      simp only [extractEntries, hd, Bool.false_eq_true, if_false, List.filter_cons,
        Bool.not_false, if_true, List.map_cons, List.length_cons, List.filter_cons]
      refine ⟨by rw [ih1], ?_, by rw [ih3]⟩
      by_cases hw : (wOk (long_path_prefixed (entryTarget targetDir name)) ||
          wOk (entryTarget targetDir name)) = true
      · simp only [hw, if_true, ih2]
      · rw [Bool.not_eq_true] at hw
        simp only [hw, Bool.false_eq_true, if_false, ih2]

/-! ## Claim C6: per-entry failures never abort extraction -/

/-- C6: whenever the archive is readable, extraction returns success,
every non-directory entry is attempted (an entry whose primary and
fallback writes both fail is merely dropped from the written set), and
the written files are exactly the attempted ones whose primary or
fallback write succeeds. -/
theorem extract_tolerates_entry_failures (env : ZEnv) (targetDir : String)
    (members : List String) (h : env.archive = some members) :
    (extract_zip_manual env targetDir).success = true ∧
    (extract_zip_manual env targetDir).attempted =
      (members.filter fun n => !(pyEndsWith (normEntryName n) "\\")).map
        (fun n => entryTarget targetDir n) ∧
    (extract_zip_manual env targetDir).written =
      ((extract_zip_manual env targetDir).attempted).filter
        (fun t => env.writeOk (long_path_prefixed t) || env.writeOk t) := by
  obtain ⟨h1, h2, h3⟩ := extractEntries_spec env.writeOk targetDir members
  simp only [extract_zip_manual, h]
  exact ⟨trivial, h1, by rw [h2, h1]⟩

/-- C6 witness: a three-entry archive in which exactly the middle entry's
target is unwritable under both path forms; the middle entry is skipped,
the other two are written, and extraction succeeds. -/
theorem extract_tolerates_entry_failures_witness :
    ((ZEnv.mk (some ["a.txt", "bad.txt", "sub/", "b.txt"]) fun s => !(pyIn "bad" s)).archive
      = some ["a.txt", "bad.txt", "sub/", "b.txt"]) ∧
    ((extract_zip_manual
        (ZEnv.mk (some ["a.txt", "bad.txt", "sub/", "b.txt"]) fun s => !(pyIn "bad" s))
        "C:\\penjs").success = true ∧
     (extract_zip_manual
        (ZEnv.mk (some ["a.txt", "bad.txt", "sub/", "b.txt"]) fun s => !(pyIn "bad" s))
        "C:\\penjs").attempted =
      ((["a.txt", "bad.txt", "sub/", "b.txt"].filter
          fun n => !(pyEndsWith (normEntryName n) "\\")).map
        (fun n => entryTarget "C:\\penjs" n)) ∧
     (extract_zip_manual
        (ZEnv.mk (some ["a.txt", "bad.txt", "sub/", "b.txt"]) fun s => !(pyIn "bad" s))
        "C:\\penjs").written =
      ((extract_zip_manual
          (ZEnv.mk (some ["a.txt", "bad.txt", "sub/", "b.txt"]) fun s => !(pyIn "bad" s))
          "C:\\penjs").attempted).filter
        (fun t => (fun s => !(pyIn "bad" s)) (long_path_prefixed t) ||
          (fun s => !(pyIn "bad" s)) t)) :=
  ⟨rfl, extract_tolerates_entry_failures _ _ _ rfl⟩

/-! ## Claim C8: the completion marker -/

/-- C8 counterexample: after a successful extraction the completion
marker's content is `"ok"` — two bytes — not the zero-byte content the
claim states. -/
theorem extraction_marker_not_empty :
    (extract_zip_manual (ZEnv.mk (some ["a.txt"]) fun _ => true) "C:\\penjs").marker
      = some "ok" ∧
    (extract_zip_manual (ZEnv.mk (some ["a.txt"]) fun _ => true) "C:\\penjs").marker
      ≠ some "" := by
  exact ⟨by decide, by decide⟩

/-- C8 (amended): after all entries are processed the extractor writes a
completion marker file named `.extracted_ok` into the target directory,
with content `"ok"` (non-empty), whenever the marker write itself
succeeds. -/
theorem extraction_marker_written (env : ZEnv) (targetDir : String) (members : List String)
    (h : env.archive = some members)
    (hw : env.writeOk (long_path_prefixed (targetDir ++ "\\" ++ EXTRACTION_MARKER)) = true) :
    (extract_zip_manual env targetDir).marker = some "ok" := by
  simp only [extract_zip_manual, h, hw, if_true]

/-- C8 witness. -/
theorem extraction_marker_written_witness :
    ((ZEnv.mk (some ["a.txt"]) fun _ => true).archive = some ["a.txt"]) ∧
    ((ZEnv.mk (some ["a.txt"]) fun _ => true).writeOk
      (long_path_prefixed ("C:\\penjs" ++ "\\" ++ EXTRACTION_MARKER)) = true) ∧
    (extract_zip_manual (ZEnv.mk (some ["a.txt"]) fun _ => true) "C:\\penjs").marker
      = some "ok" :=
  ⟨rfl, rfl, extraction_marker_written _ _ _ rfl rfl⟩

/-! ## Archive fetcher (`download_file`) -/

/-- Fetch oracle: the outcome of `requests.get` + `raise_for_status`
(exception text, or the advertised `content-length` and the streamed
chunk sizes), an optional write failure at the n-th write attempt, and
the destination file's pre-existing size (`none` when absent). -/
structure DlEnv where
  resp : Except String (Nat × List Nat)
  writeFail : Option (Nat × String)
  dest0 : Option Nat

/-- Observable outcome of one fetch: return value, destination file size
afterwards (`none`: the file does not exist), the status-callback
messages, and the progress-callback percentages. -/
structure DlResult where
  success : Bool
  dest : Option Nat
  statusMsgs : List String
  progress : List Nat
deriving DecidableEq

/-- The chunk loop of `download_file`: empty chunks are skipped
(`if not chunk: continue`); each written chunk advances `downloaded` and,
when a total length is known, reports `int(downloaded / total * 100)`
(integer division models the float truncation). -/
def dlLoop (writeFail : Option (Nat × String)) (total : Nat) :
    List Nat → Nat → Nat → Option String × Nat × List Nat
  | [], _, downloaded => (none, downloaded, [])
  | c :: rest, attempt, downloaded =>
    if c = 0 then dlLoop writeFail total rest attempt downloaded
    else
      let failsHere := match writeFail with
        | some (k, _) => k == attempt
        | none => false
      if failsHere then
        (match writeFail with | some (_, msg) => some msg | none => none, downloaded, [])
      else
        let d := downloaded + c
        let r := dlLoop writeFail total rest (attempt + 1) d
        (r.1, r.2.1, (if total ≠ 0 then [d * 100 / total] else []) ++ r.2.2)

/-- Source `download_file`: any exception inside the `try` (network,
timeout, `raise_for_status`, or a file-write error) is caught, reported
through the status callback as `"Download failed: ..."` and turned into a
`False` return; no cleanup of the destination file is ever performed.  On
the no-exception path the file holds all streamed bytes and the status
callback receives `"Download complete"`. -/
def download_file (env : DlEnv) : DlResult :=
  match env.resp with
  | .error e => ⟨false, env.dest0, ["Download failed: " ++ e], []⟩
  | .ok (total, chunks) =>
    let r := dlLoop env.writeFail total chunks 0 0
    match r.1 with
    | some msg => ⟨false, some r.2.1, ["Download failed: " ++ msg], r.2.2⟩
    | none => ⟨true, some r.2.1, ["Download complete"], r.2.2⟩

/-! ## Claim C7: fetch failure handling -/

/-- Characterization of the chunk loop when the `k`-th write attempt
(counted from `a`) raises: the loop stops with that failure, and the
bytes written are exactly the first `k` nonempty chunks. -/
theorem dlLoop_writeFail :
    ∀ (chunks : List Nat) (k a d total : Nat) (msg : String),
      k < (chunks.filter fun c => c != 0).length →
      (dlLoop (some (a + k, msg)) total chunks a d).1 = some msg ∧
      (dlLoop (some (a + k, msg)) total chunks a d).2.1 =
        d + ((chunks.filter fun c => c != 0).take k).sum
  | [], k, a, d, total, msg, hk => by simp at hk
  | c :: rest, k, a, d, total, msg, hk => by
    by_cases hc : c = 0
    · subst hc
      have hk' : k < (rest.filter fun c => c != 0).length := by simpa using hk
      have ih := dlLoop_writeFail rest k a d total msg hk'
      simp only [dlLoop, if_pos rfl]
      simpa using ih
    · have hpc : ((c != 0) : Bool) = true := by simpa using hc
      cases k with
      | zero =>
        have hbeq : ((a + 0 == a) : Bool) = true := by simp
        simp [dlLoop, hc, hbeq]
      | succ k' =>
        have hk' : k' < (rest.filter fun c => c != 0).length := by
          rw [List.filter_cons, if_pos hpc] at hk
          simpa using hk
        have harith : a + (k' + 1) = a + 1 + k' := by omega
        rw [harith]
        have hbeq : ((a + 1 + k' == a) : Bool) = false := by
          rw [beq_eq_false_iff_ne]
          omega
        have ih := dlLoop_writeFail rest k' (a + 1) (d + c) total msg hk'
        simp only [dlLoop]
        rw [if_neg hc]
        simp only [hbeq, Bool.false_eq_true, if_false]
        refine ⟨ih.1, ?_⟩
        rw [ih.2, List.filter_cons, if_pos hpc, List.take_succ_cons, List.sum_cons]
        omega

/-- C7: on any network, timeout, or HTTP-status failure, `download_file`
stops writing, reports the failure via the status callback as
`"Download failed: ..."`, returns false, and does not delete the
destination file.  Both failure points are covered: an exception out of
`requests.get`/`raise_for_status` happens before the destination is
opened and leaves it exactly as it was, while a connection or timeout
error raised mid-stream out of `iter_content` (or a failing `f.write`)
aborts the loop after the bytes streamed so far were written, leaving
that partially-written file in place. -/
theorem download_failure_reports_and_keeps_dest (env : DlEnv) :
    (∀ e, env.resp = Except.error e →
      download_file env = ⟨false, env.dest0, ["Download failed: " ++ e], []⟩) ∧
    (∀ total chunks k msg, env.resp = Except.ok (total, chunks) →
      env.writeFail = some (k, msg) →
      k < (chunks.filter fun c => c != 0).length →
      (download_file env).success = false ∧
      (download_file env).statusMsgs = ["Download failed: " ++ msg] ∧
      (download_file env).dest = some ((chunks.filter fun c => c != 0).take k).sum) := by
  constructor
  · intro e he
    simp only [download_file, he]
  · intro total chunks k msg hresp hwf hk
    have hloop := dlLoop_writeFail chunks k 0 0 total msg hk
    simp only [Nat.zero_add] at hloop
    simp only [download_file, hresp, hwf]
    rw [hloop.1]
    exact ⟨rfl, rfl, by rw [hloop.2]⟩

/-- C7 witness: a timed-out fetch over a half-written 12345-byte file,
and a connection error during streaming after two of three nonempty
chunks were written. -/
theorem download_failure_reports_and_keeps_dest_witness :
    (download_file (DlEnv.mk (Except.error "ReadTimeout") none (some 12345)) =
      ⟨false, some 12345, ["Download failed: " ++ "ReadTimeout"], []⟩) ∧
    ((download_file (DlEnv.mk (Except.ok (100, [10, 0, 20, 30]))
        (some (2, "ConnectionError")) none)).success = false ∧
     (download_file (DlEnv.mk (Except.ok (100, [10, 0, 20, 30]))
        (some (2, "ConnectionError")) none)).statusMsgs =
       ["Download failed: " ++ "ConnectionError"] ∧
     (download_file (DlEnv.mk (Except.ok (100, [10, 0, 20, 30]))
        (some (2, "ConnectionError")) none)).dest =
       some ((([10, 0, 20, 30].filter fun c => c != 0).take 2).sum)) :=
  ⟨(download_failure_reports_and_keeps_dest _).1 "ReadTimeout" rfl,
   (download_failure_reports_and_keeps_dest _).2 100 [10, 0, 20, 30] 2 "ConnectionError"
     rfl rfl (by decide)⟩

/-! ## Java discovery (`find_java_executable`) -/

/-- Environment oracle for `find_java_executable`: the `os.listdir`
result for the client dir (when it is a directory), path-existence, and
the `JAVA_HOME` / `JDK_HOME` variables and `shutil.which("java")`. -/
structure JavaEnv where
  clientIsDir : Bool
  clientEntries : List String
  fileExists : String → Bool
  javaHome : Option String
  jdkHome : Option String
  whichJava : Option String

/-- The client dir as the string the java search concatenates onto. -/
def CLIENT_DIR_STR : String := "C:\\penjs"

/-- Source `find_java_executable`: first a bundled `jre*`/`jdk*` folder
under the client dir, then `JAVA_HOME` or `JDK_HOME`, then the `PATH`
lookup; `None` when all fail. -/
def find_java_executable (env : JavaEnv) : Option String :=
  let bundled :=
    if env.clientIsDir then
      env.clientEntries.findSome? fun entry =>
        if pyStartsWith (pyLower entry) "jre" || pyStartsWith (pyLower entry) "jdk" then
          let candidate := CLIENT_DIR_STR ++ "\\" ++ entry ++ "\\bin\\java.exe"
          if env.fileExists candidate then some candidate else none
        else none
    else none
  match bundled with
  | some c => some c
  | none =>
    let fromHome :=
      match pyOrStr env.javaHome env.jdkHome with
      | some home =>
        if home = "" then none
        else if env.fileExists (home ++ "\\bin\\java.exe") then
          some (home ++ "\\bin\\java.exe")
        else none
      | none => none
    match fromHome with
    | some c => some c
    | none =>
      match env.whichJava with
      | some w => if w = "" then none else some w
      | none => none

/-! ## Launch orchestrator (`LauncherWindow.launch_procedure`)

The procedure is modelled as the ordered trace of its observable events;
downloads and extractions performed inside it are abstracted to their
success booleans and to the filesystem state left behind (their internals
are modelled above by `download_file` / `extract_zip_manual`). -/

/-- Observable events of one `launch_procedure` run. -/
inductive Ev where
  | status (msg : String)
  | extractLocal (ok : Bool)
  | download (ok : Bool)
  | extractRemote (ok : Bool)
  | collect (jars : List FPath)
  | writeArgs (lines : List String)
  | finished (ok : Bool) (msg : String)
  | spawn (java : String) (argsPath : String)
deriving DecidableEq

/-- Oracle for one launch run: the filesystem before, the filesystem any
restore leaves behind, the success of each external step, the configured
interpreter path (`self.java_path`), the java-search environment, and the
settings the argument file interpolates. -/
structure LaunchEnv where
  fs0 : FS
  fs1 : FS
  extractLocalOk : Bool
  downloadOk : Bool
  extractRemoteOk : Bool
  argsWriteOk : Bool
  argsWriteErr : String
  javaPathCfg : Option String
  javaEnv : JavaEnv
  memory_gb : Nat
  username : String

/-- The lines of `args.txt` exactly as the source writes them. -/
def argsLines (memory_gb : Nat) (username : String) (classpath : String) : List String :=
  ["-Xmx" ++ toString (memory_gb * 1024) ++ "m",
   "--enable-native-access=ALL-UNNAMED",
   "-cp",
   classpath,
   "net.minecraft.client.main.Main",
   "--version " ++ GAME_VERSION,
   "--gameDir " ++ renderPath GAME_DIR,
   "--assetsDir " ++ renderPath (GAME_DIR ++ ["swiftdlc", "game", "assets"]),
   "--assetIndex 1.16",
   "--username " ++ username,
   "--accessToken 0"]

/-- `java_exec = self.java_path or find_java_executable()`. -/
def javaExec (env : LaunchEnv) : Option String :=
  pyOrStr env.javaPathCfg (find_java_executable env.javaEnv)

/-- `not (not java_exec or not os.path.exists(java_exec))`: an
interpreter path was resolved, is non-empty, and exists on disk. -/
def javaUsable (env : LaunchEnv) : Bool :=
  match javaExec env with
  | none => false
  | some s => !(s == "") && env.javaEnv.fileExists s

/-- The exception text of the error raised after the interpreter check:
the logging statement reads the local variable `cmd` twelve lines before
its assignment, so Python raises an `UnboundLocalError` there.  The exact
wording varies across Python versions; a fixed representative is used. -/
def unboundLocalCmdMsg : String :=
  "UnboundLocalError: local variable cmd referenced before assignment"

/-- The tail of the launch after required files are known to be present:
collect and resolve the classpath, write `args.txt` (its write failure
finishes the run as failed), then resolve the interpreter.  An unusable
interpreter finishes the run with the runtime-not-found message — note
this happens after the args file was already written.  With a usable
interpreter, the run finishes as failed with the `UnboundLocalError`
text: the logging statement referencing the unassigned `cmd` raises
before `subprocess.Popen` is ever reached, and the `_background` wrapper
converts the exception into a failure notification. -/
def planPhase (env : LaunchEnv) (fs : FS) : List Ev :=
  let jars := _filter_guava_keep_latest (collect_classpath fs)
  let classpath := String.intercalate ";" (jars.map renderPath)
  Ev.collect jars ::
  (if env.argsWriteOk then
    Ev.writeArgs (argsLines env.memory_gb env.username classpath) ::
    Ev.status "args.txt written" ::
    (if javaUsable env then [Ev.finished false unboundLocalCmdMsg]
     else [Ev.finished false "Java not found. Set path in Settings."])
  else [Ev.finished false ("Failed to write args.txt: " ++ env.argsWriteErr)])

/-- The itemizing failure message for a check that still fails after a
restore. -/
def stillMsg (env : LaunchEnv) : String :=
  "Still missing " ++ toString (_check_required_files env.fs1).length ++
    " items after extraction:\n" ++ String.intercalate "\n" (_check_required_files env.fs1)

/-- The re-check after a restore: still-missing items finish the run as
failed, itemizing every missing path; otherwise continue to the plan. -/
def restoreTail (env : LaunchEnv) : List Ev :=
  if (_check_required_files env.fs1).isEmpty then planPhase env env.fs1
  else [Ev.finished false (stillMsg env)]

/-- Source `launch_procedure` (under the `_bg_lock` guard): verify; on
missing items restore from the local archive if present, else download
and extract, each failure finishing the run; re-verify; then the plan
phase. -/
def launch_procedure (env : LaunchEnv) : List Ev :=
  Ev.status "Preparing launch..." ::
  (if (_check_required_files env.fs0).isEmpty then
     Ev.status "All required files present" :: planPhase env env.fs0
   else
     Ev.status ("Missing " ++ toString (_check_required_files env.fs0).length ++
       " items. Trying to restore...") ::
     (if env.fs0.ex CLIENT_ZIP_PATH then
        if env.extractLocalOk then Ev.extractLocal true :: restoreTail env
        else [Ev.extractLocal false, Ev.finished false "Extraction from local archive failed"]
      else
        if !env.downloadOk then [Ev.download false, Ev.finished false "Download failed"]
        else if !env.extractRemoteOk then
          [Ev.download true, Ev.extractRemote false, Ev.finished false "Extraction failed"]
        else Ev.download true :: Ev.extractRemote true :: restoreTail env))

/-! ## Event predicates -/

def isSpawn : Ev → Bool
  | Ev.spawn _ _ => true
  | _ => false

def isCollect : Ev → Bool
  | Ev.collect _ => true
  | _ => false

def isWriteArgs : Ev → Bool
  | Ev.writeArgs _ => true
  | _ => false

/-- The last event of a trace. -/
def lastEv : List Ev → Option Ev
  | [] => none
  | [e] => some e
  | _ :: e :: rest => lastEv (e :: rest)

theorem isEmpty_false_of_ne_nil {α} {l : List α} (h : l ≠ []) : l.isEmpty = false := by
  cases l with
  | nil => exact absurd rfl h
  | cons x xs => rfl

/-! ## No branch of the launch ever emits a spawn event -/

theorem planPhase_no_spawn (env : LaunchEnv) (fs : FS) :
    (planPhase env fs).all (fun e => !(isSpawn e)) = true := by
  unfold planPhase
  by_cases ha : env.argsWriteOk = true
  · by_cases hj : javaUsable env = true
    · simp [ha, hj, isSpawn]
    · rw [Bool.not_eq_true] at hj
      simp [ha, hj, isSpawn]
  · rw [Bool.not_eq_true] at ha
    simp [ha, isSpawn]

theorem all_cons_of {p : Ev → Bool} {e : Ev} {l : List Ev} (he : p e = true)
    (hl : l.all p = true) : (e :: l).all p = true := by
  rw [List.all_cons, he, hl]
  rfl

theorem restoreTail_no_spawn (env : LaunchEnv) :
    (restoreTail env).all (fun e => !(isSpawn e)) = true := by
  unfold restoreTail
  by_cases h2 : (_check_required_files env.fs1).isEmpty = true
  · rw [if_pos h2]
    exact planPhase_no_spawn env env.fs1
  · rw [if_neg h2]
    rfl

theorem launch_no_spawn (env : LaunchEnv) :
    (launch_procedure env).all (fun e => !(isSpawn e)) = true := by
  unfold launch_procedure
  by_cases h1 : (_check_required_files env.fs0).isEmpty = true
  · rw [if_pos h1]
    exact all_cons_of rfl (all_cons_of rfl (planPhase_no_spawn env env.fs0))
  · rw [if_neg h1]
    by_cases hz : env.fs0.ex CLIENT_ZIP_PATH = true
    · rw [if_pos hz]
      by_cases hel : env.extractLocalOk = true
      · rw [if_pos hel]
        exact all_cons_of rfl (all_cons_of rfl (all_cons_of rfl (restoreTail_no_spawn env)))
      · rw [if_neg hel]
        rfl
    · rw [if_neg hz]
      by_cases hdl : (!env.downloadOk) = true
      · rw [if_pos hdl]
        rfl
      · rw [if_neg hdl]
        by_cases her : (!env.extractRemoteOk) = true
        · rw [if_pos her]
          rfl
        · rw [if_neg her]
          exact all_cons_of rfl (all_cons_of rfl (all_cons_of rfl
            (all_cons_of rfl (restoreTail_no_spawn env))))

/-! ## Concrete environments for the launch claims -/

/-- A filesystem on which the required-file check passes. -/
def fsComplete : FS :=
  ⟨[VERSION_JAR, LIBRARIES_DIR ++ ["a.jar"]], [CLIENT_DIR, LIBRARIES_DIR]⟩

/-- A java environment in which nothing is found. -/
def javaEnvNone : JavaEnv := ⟨false, [], fun _ => false, none, none, none⟩

/-- A launch run with all files present and no interpreter anywhere. -/
def envNoJava : LaunchEnv :=
  ⟨fsComplete, fsComplete, true, true, true, true, "", none, javaEnvNone, 4, "Player"⟩

/-- A launch run with all files present and a configured, existing
interpreter path. -/
def envJavaOk : LaunchEnv :=
  ⟨fsComplete, fsComplete, true, true, true, true, "", some "C:\\java\\bin\\java.exe",
   ⟨false, [], fun s => s == "C:\\java\\bin\\java.exe", none, none, none⟩, 4, "Player"⟩

/-! ## Claim C1 (code bug): the spawn is unreachable -/

/-- C1: no execution of `launch_procedure` ever spawns the external
process, and the run in which everything is present and a usable
interpreter is found finishes as failed carrying the
`UnboundLocalError` text — the logging statement reads the local `cmd`
before its assignment, so the claimed exit-code handling (zero to
Completed, nonzero to Failed) is dead code. -/
theorem spawn_unreachable_unbound_cmd :
    (∀ env : LaunchEnv, (launch_procedure env).all (fun e => !(isSpawn e)) = true) ∧
    lastEv (launch_procedure envJavaOk) = some (Ev.finished false unboundLocalCmdMsg) := by
  exact ⟨launch_no_spawn, by decide⟩

/-! ## Claim C2: runtime-not-found happens after the args file is written -/

/-- C2 counterexample: with no interpreter available anywhere and all
required files present, the run does write the arguments file and only
then finishes with the runtime-not-found message — refuting "on this
failure path no arguments file is created". -/
theorem args_written_before_java_check :
    ((launch_procedure envNoJava).any isWriteArgs = true) ∧
    lastEv (launch_procedure envNoJava) =
      some (Ev.finished false "Java not found. Set path in Settings.") := by
  exact ⟨by decide, by decide⟩

/-- C2 (amended): when no usable interpreter executable exists (neither
configured, bundled, via the environment homes, nor on the search path),
the launch fails with the runtime-not-found message, but only after the
transient arguments file has been written: the args-write event occurs in
the trace and the failure is the final event. -/
theorem java_missing_fails_after_args_write (env : LaunchEnv)
    (hmiss : _check_required_files env.fs0 = [])
    (hargs : env.argsWriteOk = true)
    (hjava : javaUsable env = false) :
    (∃ lines, Ev.writeArgs lines ∈ launch_procedure env) ∧
    lastEv (launch_procedure env) =
      some (Ev.finished false "Java not found. Set path in Settings.") := by
  constructor
  · refine ⟨argsLines env.memory_gb env.username
      (String.intercalate ";"
        ((_filter_guava_keep_latest (collect_classpath env.fs0)).map renderPath)), ?_⟩
    simp [launch_procedure, planPhase, hmiss, hargs, hjava]
  · simp [launch_procedure, planPhase, hmiss, hargs, hjava, lastEv]

/-- C2 witness. -/
theorem java_missing_fails_after_args_write_witness :
    (_check_required_files envNoJava.fs0 = []) ∧
    (envNoJava.argsWriteOk = true) ∧
    (javaUsable envNoJava = false) ∧
    ((∃ lines, Ev.writeArgs lines ∈ launch_procedure envNoJava) ∧
     lastEv (launch_procedure envNoJava) =
       some (Ev.finished false "Java not found. Set path in Settings.")) :=
  ⟨by decide, rfl, by decide,
   java_missing_fails_after_args_write envNoJava (by decide) rfl (by decide)⟩

/-! ## Claim C5: no plan assembly while files are missing -/

/-- C5: if the check reports missing items and items are still missing
after the restore attempt (or the restore itself fails), the run
finishes as failed without ever collecting the classpath, writing the
arguments file, or spawning the process. -/
theorem no_plan_while_missing (env : LaunchEnv)
    (h1 : _check_required_files env.fs0 ≠ [])
    (h2 : _check_required_files env.fs1 ≠ []) :
    (launch_procedure env).all
      (fun e => !(isCollect e) && !(isWriteArgs e) && !(isSpawn e)) = true ∧
    (∃ msg, lastEv (launch_procedure env) = some (Ev.finished false msg)) := by
  have h1' : ¬((_check_required_files env.fs0).isEmpty = true) := by
    rw [isEmpty_false_of_ne_nil h1]
    exact Bool.false_ne_true
  have hrt : restoreTail env = [Ev.finished false (stillMsg env)] := by
    unfold restoreTail
    rw [if_neg (by rw [isEmpty_false_of_ne_nil h2]; exact Bool.false_ne_true)]
  unfold launch_procedure
  rw [if_neg h1']
  by_cases hz : env.fs0.ex CLIENT_ZIP_PATH = true
  · rw [if_pos hz]
    by_cases hel : env.extractLocalOk = true
    · rw [if_pos hel, hrt]
      exact ⟨rfl, ⟨stillMsg env, rfl⟩⟩
    · rw [if_neg hel]
      exact ⟨rfl, ⟨"Extraction from local archive failed", rfl⟩⟩
  · rw [if_neg hz]
    by_cases hdl : (!env.downloadOk) = true
    · rw [if_pos hdl]
      exact ⟨rfl, ⟨"Download failed", rfl⟩⟩
    · rw [if_neg hdl]
      by_cases her : (!env.extractRemoteOk) = true
      · rw [if_pos her]
        exact ⟨rfl, ⟨"Extraction failed", rfl⟩⟩
      · rw [if_neg her, hrt]
        exact ⟨rfl, ⟨stillMsg env, rfl⟩⟩

/-- C5 witness: the empty filesystem before and after the restore. -/
theorem no_plan_while_missing_witness :
    (_check_required_files (FS.mk [] []) ≠ []) ∧
    ((launch_procedure
        ⟨⟨[], []⟩, ⟨[], []⟩, true, true, true, true, "", none, javaEnvNone, 4, "Player"⟩).all
      (fun e => !(isCollect e) && !(isWriteArgs e) && !(isSpawn e)) = true ∧
     (∃ msg, lastEv (launch_procedure
        ⟨⟨[], []⟩, ⟨[], []⟩, true, true, true, true, "", none, javaEnvNone, 4, "Player"⟩) =
          some (Ev.finished false msg))) :=
  ⟨by decide, no_plan_while_missing _ (by decide) (by decide)⟩

end SwiftDLC
